import Mathlib

/-!
Shallow embedding of the movie-tracker backend (src/server.js) in Lean 4.

The source is a single Express application: registration, login, a JWT
auth middleware, a TMDB catalog proxy, and saved-movie CRUD backed by
Postgres. Each route handler is embedded as a pure Lean function over an
explicit database state; the JS runtime behaviours the handlers rely on
(truthiness, String.prototype.split, optional chaining) are modelled by
small helper functions, and the external libraries (bcryptjs,
jsonwebtoken) by symbolic executable models.
-/

/-- Models the JS expression `v || null` for a nullable string `v`:
    both a missing value and the empty string (falsy) collapse to null. -/
def jsOrNull (v : Option String) : Option String :=
  match v with
  | some s => if s = "" then none else some s
  | none => none

/-- Models JS truthiness testing `!v` for a JSON number field:
    absent and 0 are falsy. -/
def jsFalsyNum (v : Option Nat) : Bool :=
  match v with
  | some n => n == 0
  | none => true

/-- Models JS truthiness testing `!v` for a JSON string field:
    absent and the empty string are falsy. -/
def jsFalsyStr (v : Option String) : Bool :=
  match v with
  | some s => s == ""
  | none => true

/-- Models JS `String.prototype.split` with a one-character separator,
    on the character list of the string. `split` always returns at least
    one (possibly empty) chunk. -/
def jsSplitChars (sep : Char) : List Char → List (List Char)
  | [] => [[]]
  | c :: cs =>
    if c = sep then [] :: jsSplitChars sep cs
    else
      match jsSplitChars sep cs with
      | [] => [[c]]
      | r :: rs => (c :: r) :: rs

/-- Models JS `s.split(sep)` for a one-character separator. -/
def jsSplit (sep : Char) (s : String) : List String :=
  (jsSplitChars sep s.toList).map String.mk

/-! ## bcryptjs model

The hash is modelled as an injective tagged encoding of the cost and the
plaintext; `compare` checks the stored hash against the hash of the
candidate password at the fixed cost the server uses (12). -/

/-- Models `bcrypt.hash(password, cost)`. -/
def bcryptHash (cost : Nat) (password : String) : String :=
  "$2a$" ++ Nat.repr cost ++ "$" ++ password

/-- Models `bcrypt.compare(password, hash)` for hashes produced by this
    server (cost 12). -/
def bcryptCompare (password hash : String) : Bool :=
  hash == bcryptHash 12 password

/-! ## jsonwebtoken model

A token is either a structurally well-formed JWT carrying a payload and a
signature string, or an unparseable blob. The signature is a symbolic
deterministic function of the secret and the payload, so verification
succeeds exactly when the same secret was used to sign the same payload.
`jwt.verify` rejects, in order: malformed tokens, bad signatures, and
tokens whose expiry is not in the future (expired when now is at or past
the exp claim, as jsonwebtoken does). -/

structure JwtPayload where
  userId : Nat
  iat : Nat
  exp : Nat
deriving DecidableEq, Repr

inductive Jwt where
  | wellFormed (payload : JwtPayload) (sig : String)
  | malformed (raw : String)
deriving DecidableEq, Repr

/-- Symbolic signature: a deterministic injective function of the secret
    and the payload claims. -/
def jwtSignature (secret : String) (p : JwtPayload) : String :=
  secret ++ "." ++ Nat.repr p.userId ++ "." ++ Nat.repr p.iat ++ "." ++ Nat.repr p.exp

/-- Models `jwt.sign({userId}, secret, {expiresIn})`: the payload carries
    the subject user id, the issue time, and exp = iat + lifetime in
    seconds ("1h" is 3600, "7d" is 604800). -/
def jwtSign (secret : String) (userId now lifetime : Nat) : Jwt :=
  let p : JwtPayload := { userId := userId, iat := now, exp := now + lifetime }
  .wellFormed p (jwtSignature secret p)

inductive JwtError where
  | malformed
  | invalidSignature
  | expired
deriving DecidableEq, Repr

/-- Models `jwt.verify(token, secret)` at clock time `now` (seconds). -/
def jwtVerify (secret : String) (now : Nat) : Jwt → Except JwtError JwtPayload
  | .malformed _ => .error .malformed
  | .wellFormed p s =>
    if s ≠ jwtSignature secret p then .error .invalidSignature
    else if p.exp ≤ now then .error .expired
    else .ok p

/-! ## Data model

Rows of the two Postgres tables, and the in-memory database state. Fresh
ids come from counters standing for the SERIAL columns; `created_at`
stamps come from the clock value passed into each handler. -/

structure UserRow where
  id : Nat
  username : String
  email : String
  password_hash : String
  display_name : Option String
  created_at : Nat
deriving DecidableEq, Repr

/-- The columns returned by the SELECT in the auth middleware and by the
    INSERT ... RETURNING of registration: everything except the password
    hash. -/
structure AuthedUser where
  id : Nat
  username : String
  email : String
  display_name : Option String
  created_at : Nat
deriving DecidableEq, Repr

/-- Projection of a full user row onto the password-hash-free column list
    (models a SELECT naming those five columns). -/
def toAuthedUser (r : UserRow) : AuthedUser :=
  { id := r.id, username := r.username, email := r.email,
    display_name := r.display_name, created_at := r.created_at }

/-- The user object serialized into responses by `sanitizeUser`. -/
structure SanitizedUser where
  id : Nat
  username : String
  email : String
  display_name : Option String
  created_at : Nat
deriving DecidableEq, Repr

/-- Models `sanitizeUser(row)`: picks id, username, email, display_name
    (with the `|| null` falsy collapse) and created_at, and nothing else. -/
def sanitizeUser (row : AuthedUser) : SanitizedUser :=
  { id := row.id, username := row.username, email := row.email,
    display_name := jsOrNull row.display_name, created_at := row.created_at }

structure SavedMovieRow where
  id : Nat
  user_id : Nat
  movie_id : Nat
  title : String
  year : Option String
  poster : Option String
  created_at : Nat
deriving DecidableEq, Repr

structure Db where
  users : List UserRow
  saved : List SavedMovieRow
  nextUserId : Nat
  nextSavedId : Nat
deriving DecidableEq, Repr

/-- Models `process.env.JWT_SECRET || "change_this_secret"`: an unset or
    empty (falsy) environment variable silently falls back to the
    hard-coded default secret. -/
def JWT_SECRET (env : Option String) : String :=
  match env with
  | some s => if s = "" then "change_this_secret" else s
  | none => "change_this_secret"

/-! ## JSON value model

Just enough JSON to state what keys a serialized user object exposes. -/

inductive JVal where
  | str (s : String)
  | num (n : Nat)
  | nullv
deriving DecidableEq, Repr

def jvalOfOptStr (v : Option String) : JVal :=
  match v with
  | some s => .str s
  | none => .nullv

/-- The field list of the JSON object `sanitizeUser` builds, in source
    order. -/
def SanitizedUser.toJFields (u : SanitizedUser) : List (String × JVal) :=
  [("id", .num u.id),
   ("username", .str u.username),
   ("email", .str u.email),
   ("display_name", jvalOfOptStr u.display_name),
   ("created_at", .num u.created_at)]

/-- The key set of the serialized user object. -/
def userObjKeys (u : SanitizedUser) : List String :=
  u.toJFields.map (·.1)

/-! ## POST /api/register -/

structure RegisterBody where
  username : Option String
  email : Option String
  password : Option String
  confirmPassword : Option String
deriving DecidableEq, Repr

/-- Models the validator.js `isEmail` check abstractly: exactly one at
    sign, a nonempty local part, and a domain of at least two nonempty
    dot-separated labels. The exact grammar is irrelevant to the claims;
    only which requests count as structurally invalid matters. -/
def isEmailModel (s : String) : Bool :=
  match jsSplitChars '@' s.toList with
  | [localPart, domain] =>
    localPart ≠ [] &&
    (let labels := jsSplitChars '.' domain
     labels.length ≥ 2 && labels.all (· ≠ []))
  | _ => false

/-- Does the request pass `body("username").isLength({min 3})`?
    A missing field fails the validator. -/
def usernameOk (b : RegisterBody) : Bool :=
  match b.username with
  | some u => u.length ≥ 3
  | none => false

/-- Does the request pass `body("email").isEmail()`? -/
def emailOk (b : RegisterBody) : Bool :=
  match b.email with
  | some e => isEmailModel e
  | none => false

/-- Does the request pass `body("password").isLength({min 6})`? -/
def passwordOk (b : RegisterBody) : Bool :=
  match b.password with
  | some p => p.length ≥ 6
  | none => false

/-- Does the request pass `body("confirmPassword").exists()`? -/
def confirmPresent (b : RegisterBody) : Bool :=
  b.confirmPassword.isSome

/-- Models `validationResult(req).array()`: the messages of every failed
    validator, in the order the validators are attached. The exists()
    validator reports the express-validator default message. -/
def registerValidationMsgs (b : RegisterBody) : List String :=
  (if usernameOk b then [] else ["username min 3 chars"]) ++
  (if emailOk b then [] else ["invalid email"]) ++
  (if passwordOk b then [] else ["password min 6 chars"]) ++
  (if confirmPresent b then [] else ["Invalid value"])

inductive RegisterResult where
  | validationFailed (errs : List String)
  | passwordMismatch
  | usernameTaken
  | emailUsed
  | created (user : SanitizedUser) (token : Jwt)
deriving DecidableEq, Repr

/-- Status code the register handler attaches to each outcome. -/
def registerStatus : RegisterResult → Nat
  | .validationFailed _ => 400
  | .passwordMismatch => 400
  | .usernameTaken => 400
  | .emailUsed => 400
  | .created _ _ => 201

/-- The message field of the register response body, when it has one. -/
def registerMessage : RegisterResult → Option String
  | .validationFailed _ => none
  | .passwordMismatch => some "passwords do not match"
  | .usernameTaken => some "username already taken"
  | .emailUsed => some "email already used"
  | .created _ _ => none

/-- The POST /api/register handler. `now` is both the token clock and the
    inserted created_at stamp. Returns the response outcome and the
    database state after the request. -/
def registerHandler (secret : String) (now : Nat) (db : Db) (b : RegisterBody) :
    RegisterResult × Db :=
  let errs := registerValidationMsgs b
  if errs ≠ [] then (.validationFailed errs, db)
  else
    -- validation passed, so every field is present: the defaults of getD
    -- below are unreachable
    let username := b.username.getD ""
    let email := b.email.getD ""
    let password := b.password.getD ""
    let confirmPassword := b.confirmPassword.getD ""
    if password ≠ confirmPassword then (.passwordMismatch, db)
    else if (db.users.find? (fun r => r.username == username)).isSome then
      (.usernameTaken, db)
    else if (db.users.find? (fun r => r.email == email)).isSome then
      (.emailUsed, db)
    else
      let password_hash := bcryptHash 12 password
      let display_name := username
      let row : UserRow :=
        { id := db.nextUserId, username := username, email := email,
          password_hash := password_hash, display_name := some display_name,
          created_at := now }
      let db1 : Db :=
        { db with users := db.users ++ [row], nextUserId := db.nextUserId + 1 }
      let token := jwtSign secret row.id now 3600
      (.created (sanitizeUser (toAuthedUser row)) token, db1)

/-! ## POST /api/login -/

structure LoginBody where
  username : Option String
  password : Option String
deriving DecidableEq, Repr

/-- Models `validationResult(req).array()` for the login validators
    (`exists()` on username and password, default messages). -/
def loginValidationMsgs (b : LoginBody) : List String :=
  (if b.username.isSome then [] else ["Invalid value"]) ++
  (if b.password.isSome then [] else ["Invalid value"])

inductive LoginResult where
  | validationFailed (errs : List String)
  | invalidCredentials
  | success (user : SanitizedUser) (token : Jwt)
deriving DecidableEq, Repr

/-- Status code the login handler attaches to each outcome. -/
def loginStatus : LoginResult → Nat
  | .validationFailed _ => 400
  | .invalidCredentials => 401
  | .success _ _ => 200

/-- The message field of the login response body, when it has one. -/
def loginMessage : LoginResult → Option String
  | .validationFailed _ => none
  | .invalidCredentials => some "invalid credentials"
  | .success _ _ => none

/-- The POST /api/login handler. Reads the database, never writes it. -/
def loginHandler (secret : String) (now : Nat) (db : Db) (b : LoginBody) :
    LoginResult :=
  let errs := loginValidationMsgs b
  if errs ≠ [] then .validationFailed errs
  else
    let username := b.username.getD ""
    let password := b.password.getD ""
    match db.users.find? (fun r => r.username == username) with
    | none => .invalidCredentials
    | some user =>
      if ¬ bcryptCompare password user.password_hash then .invalidCredentials
      else .success (sanitizeUser (toAuthedUser user))
        (jwtSign secret user.id now 604800)

/-! ## authMiddleware and GET /api/me -/

/-- The Authorization header as the middleware sees it: absent, present
    but not of the form Bearer token, or a bearer token. -/
inductive AuthHeader where
  | missing
  | notBearer (v : String)
  | bearer (tok : Jwt)
deriving DecidableEq, Repr

/-- A 401 response of the middleware: status code and message body. -/
structure AuthReject where
  status : Nat
  message : String
deriving DecidableEq, Repr

/-- Models `authMiddleware`: missing header or wrong scheme is rejected
    as no token; a token that fails `jwt.verify` for any reason, and a
    verified token whose subject matches no user row, are rejected with
    the single message invalid token; otherwise the selected user row
    (without the password hash column) is attached to the request. -/
def authMiddleware (secret : String) (now : Nat) (db : Db) (h : AuthHeader) :
    Except AuthReject AuthedUser :=
  match h with
  | .missing => .error { status := 401, message := "no token" }
  | .notBearer _ => .error { status := 401, message := "no token" }
  | .bearer tok =>
    match jwtVerify secret now tok with
    | .error _ => .error { status := 401, message := "invalid token" }
    | .ok payload =>
      match db.users.find? (fun r => r.id == payload.userId) with
      | none => .error { status := 401, message := "invalid token" }
      | some row => .ok (toAuthedUser row)

/-- The GET /api/me handler: behind the middleware, returns the sanitized
    resolved user. -/
def meHandler (secret : String) (now : Nat) (db : Db) (h : AuthHeader) :
    Except AuthReject SanitizedUser :=
  (authMiddleware secret now db h).map sanitizeUser

/-! ## Catalog proxy: search, trending, details -/

/-- An item of the upstream TMDB results array, with the fields the
    handlers read. Nullable upstream fields are options. -/
structure TmdbMovie where
  id : Nat
  title : String
  overview : String
  release_date : Option String
  poster_path : Option String
deriving DecidableEq, Repr

/-- A reshaped catalog item as serialized by the proxy handlers. none for
    year models the absent (undefined) field; none for poster models the
    JSON null the handler writes. -/
structure ReshapedMovie where
  id : Nat
  title : String
  overview : String
  year : Option String
  poster : Option String
deriving DecidableEq, Repr

/-- Models the per-item arrow function of the search and trending
    handlers: year is release_date?.split("-")[0] (absent when
    release_date is nullish), poster is the w500 image URL when
    poster_path is truthy, else null. -/
def reshapeMovie (m : TmdbMovie) : ReshapedMovie :=
  { id := m.id, title := m.title, overview := m.overview,
    year := m.release_date.map (fun s => (jsSplit '-' s).headD ""),
    poster :=
      match m.poster_path with
      | some p =>
        if p = "" then none
        else some ("https://image.tmdb.org/t/p/w500" ++ p)
      | none => none }

/-- The results array of GET /api/movies/search on upstream data. -/
def searchResults (data : List TmdbMovie) : List ReshapedMovie :=
  data.map reshapeMovie

/-- The results array of GET /api/movies/trending on upstream data. -/
def trendingResults (data : List TmdbMovie) : List ReshapedMovie :=
  data.map reshapeMovie

/-- An upstream genre object, of which the details handler reads name. -/
structure TmdbGenre where
  name : String
deriving DecidableEq, Repr

/-- The upstream movie-details document fields the handler reads. -/
structure TmdbDetails where
  id : Nat
  title : String
  overview : String
  release_date : Option String
  poster_path : Option String
  genres : Option (List TmdbGenre)
deriving DecidableEq, Repr

/-- The body of GET /api/movies/details/:id as reshaped by the handler. -/
structure DetailsMovie where
  id : Nat
  title : String
  overview : String
  year : Option String
  poster : Option String
  genres : Option (List String)
deriving DecidableEq, Repr

/-- Models the details handler reshaping, identical to the list items
    plus genres?.map(g => g.name). -/
def detailsBody (d : TmdbDetails) : DetailsMovie :=
  { id := d.id, title := d.title, overview := d.overview,
    year := d.release_date.map (fun s => (jsSplit '-' s).headD ""),
    poster :=
      match d.poster_path with
      | some p =>
        if p = "" then none
        else some ("https://image.tmdb.org/t/p/w500" ++ p)
      | none => none,
    genres := d.genres.map (fun gs => gs.map TmdbGenre.name) }

/-! ## Saved movies: save, list, delete -/

structure SaveBody where
  movie_id : Option Nat
  title : Option String
  year : Option String
  poster : Option String
deriving DecidableEq, Repr

inductive SaveResult where
  | missingFields
  | created (row : SavedMovieRow)
deriving DecidableEq, Repr

/-- Status code of the save handler outcomes. -/
def saveStatus : SaveResult → Nat
  | .missingFields => 400
  | .created _ => 201

/-- The POST /api/movies/save handler, after the middleware resolved the
    requesting user id `uid`. The guard is the JS truthiness test
    `!movie_id || !title`. -/
def saveHandler (db : Db) (uid now : Nat) (b : SaveBody) :
    SaveResult × Db :=
  if jsFalsyNum b.movie_id || jsFalsyStr b.title then (.missingFields, db)
  else
    let row : SavedMovieRow :=
      { id := db.nextSavedId, user_id := uid, movie_id := b.movie_id.getD 0,
        title := b.title.getD "", year := b.year, poster := b.poster,
        created_at := now }
    (.created row, { db with saved := db.saved ++ [row],
                             nextSavedId := db.nextSavedId + 1 })

/-- The GET /api/mymovies handler, after the middleware resolved `uid`:
    SELECT * FROM saved_movies WHERE user_id = uid ORDER BY created_at
    DESC. -/
def listSaved (db : Db) (uid : Nat) : List SavedMovieRow :=
  (db.saved.filter (fun r => r.user_id == uid)).mergeSort
    (fun a b => b.created_at ≤ a.created_at)

inductive DeleteResult where
  | notFound
  | removed
deriving DecidableEq, Repr

/-- Status code of the delete handler outcomes. -/
def deleteStatus : DeleteResult → Nat
  | .notFound => 404
  | .removed => 200

/-- The message field of the delete response body. -/
def deleteMessage : DeleteResult → String
  | .notFound => "movie not found"
  | .removed => "movie removed"

/-- The DELETE /api/movies/:id handler for requesting user `uid` and path
    parameter `mid`: DELETE FROM saved_movies WHERE user_id = uid AND
    movie_id = mid removes every matching row; zero matched rows is a
    404. The source also rejects a falsy raw path parameter, but the
    route only matches a nonempty path segment, so that guard never
    fires and is not modelled. -/
def deleteSaved (db : Db) (uid mid : Nat) : DeleteResult × Db :=
  let matched := db.saved.filter (fun r => r.user_id == uid && r.movie_id == mid)
  if matched.isEmpty then (.notFound, db)
  else (.removed,
    { db with saved :=
        db.saved.filter (fun r => ¬ (r.user_id == uid && r.movie_id == mid)) })

/-! ## Spec-side definitions

These follow the wording of the specification, for the refinement claims
that compare handler behaviour against the spec text; they are
deliberately written independently of the handler code above. -/

/-- Year as the spec words it: the substring of the release date before
    its first dash, or absent when the release date field is absent. -/
def yearSpec (release_date : Option String) : Option String :=
  release_date.map (fun s => String.mk (s.toList.takeWhile (fun c => c ≠ '-')))

/-- Poster as the spec words it: a constructed image URL when a poster
    path is present (in the JS-truthy sense, hence nonempty), else
    absent. -/
def posterSpec (poster_path : Option String) : Option String :=
  match poster_path with
  | some p =>
    if p = "" then none else some ("https://image.tmdb.org/t/p/w500" ++ p)
  | none => none

/-! ## Lemmas about the split model -/

theorem jsSplitChars_ne_nil (sep : Char) (cs : List Char) :
    jsSplitChars sep cs ≠ [] := by
  induction cs with
  | nil => simp [jsSplitChars]
  | cons c cs ih =>
    simp only [jsSplitChars]
    split
    · simp
    · split
      · simp
      · simp

theorem jsSplitChars_headD (sep : Char) (cs : List Char) :
    (jsSplitChars sep cs).headD [] = cs.takeWhile (fun c => c ≠ sep) := by
  induction cs with
  | nil => rfl
  | cons c cs ih =>
    simp only [jsSplitChars]
    by_cases hc : c = sep
    · rw [if_pos hc]
      simp [List.takeWhile_cons, hc]
    · rw [if_neg hc]
      cases hsp : jsSplitChars sep cs with
      | nil => exact absurd hsp (jsSplitChars_ne_nil sep cs)
      | cons r rs =>
        rw [hsp] at ih
        simp only [List.headD_cons] at ih
        simp [List.takeWhile_cons, hc, ih]

/-- The first chunk of the JS split is the longest separator-free prefix:
    s.split(sep)[0] is the substring of s before the first sep. -/
theorem jsSplit_headD (sep : Char) (s : String) :
    (jsSplit sep s).headD "" = String.mk (s.toList.takeWhile (fun c => c ≠ sep)) := by
  unfold jsSplit
  cases hsp : jsSplitChars sep s.toList with
  | nil => exact absurd hsp (jsSplitChars_ne_nil sep s.toList)
  | cons r rs =>
    have h := jsSplitChars_headD sep s.toList
    rw [hsp] at h
    simp only [List.headD_cons] at h
    simp [h]

/-! ## Concrete data for the witness theorems -/

/-- An empty database. -/
def cDb0 : Db := { users := [], saved := [], nextUserId := 1, nextSavedId := 1 }

/-- The user row registration inserts for alice into the empty database. -/
def cAlice : UserRow :=
  { id := 1, username := "alice", email := "a@x.com",
    password_hash := bcryptHash 12 "secret1", display_name := some "alice",
    created_at := 0 }

/-- The database after alice registered. -/
def cDb1 : Db := { users := [cAlice], saved := [], nextUserId := 2, nextSavedId := 1 }

/-- A saved-movie association row owned by alice (user id 1). -/
def cSavedRow : SavedMovieRow :=
  { id := 1, user_id := 1, movie_id := 603, title := "The Matrix",
    year := some "1999", poster := none, created_at := 3 }

/-- The database after alice saved movie 603. -/
def cDb2 : Db := { users := [cAlice], saved := [cSavedRow], nextUserId := 2, nextSavedId := 2 }

/-- A valid registration request for alice. -/
def cRegisterBody : RegisterBody :=
  { username := some "alice", email := some "a@x.com",
    password := some "secret1", confirmPassword := some "secret1" }

/-- A valid login request for alice. -/
def cLoginBody : LoginBody :=
  { username := some "alice", password := some "secret1" }

/-- A registration request violating two constraints at once: username of
    length 2, and password different from confirmPassword. -/
def cBadBody : RegisterBody :=
  { username := some "ab", email := some "a@b.com",
    password := some "secret1", confirmPassword := some "different" }

/-- A registration request passing every validator but with password
    different from confirmPassword. -/
def cMismatchBody : RegisterBody :=
  { username := some "carol", email := some "c@x.com",
    password := some "secret1", confirmPassword := some "secret2" }

/-- A registration request reusing the username alice with a fresh email. -/
def cDupUsernameBody : RegisterBody :=
  { username := some "alice", email := some "b@y.com",
    password := some "secret2", confirmPassword := some "secret2" }

/-- A registration request reusing the email of alice with a fresh
    username. -/
def cDupEmailBody : RegisterBody :=
  { username := some "bobby", email := some "a@x.com",
    password := some "secret2", confirmPassword := some "secret2" }

/-- A token payload for user 1, issued at 0, expiring at 10. -/
def cPayload : JwtPayload := { userId := 1, iat := 0, exp := 10 }

/-- A token payload whose subject matches no user of cDb1. -/
def cPayloadNoUser : JwtPayload := { userId := 99, iat := 0, exp := 10 }

/-! ## Claim theorems -/

/-- C1: For every successful Register, Login, and Resolve (GET /api/me)
    response, the returned user object never contains the password hash
    field: the user object of each success response is built from
    sanitizeUser applied to a stored row, and the serialization of
    sanitizeUser exposes exactly the keys id, username, email,
    display_name and created_at. -/
theorem c1_user_response_never_contains_password_hash :
    (∀ u : SanitizedUser,
      userObjKeys u = ["id", "username", "email", "display_name", "created_at"] ∧
      "password_hash" ∉ userObjKeys u) ∧
    (∀ secret now db b u tok db1,
      registerHandler secret now db b = (.created u tok, db1) →
      ∃ row ∈ db1.users, u = sanitizeUser (toAuthedUser row)) ∧
    (∀ secret now db b u tok,
      loginHandler secret now db b = .success u tok →
      ∃ row ∈ db.users, u = sanitizeUser (toAuthedUser row)) ∧
    (∀ secret now db h u,
      meHandler secret now db h = .ok u →
      ∃ row ∈ db.users, u = sanitizeUser (toAuthedUser row)) := by
  refine ⟨?_, ?_, ?_, ?_⟩
  · intro u
    have hk : userObjKeys u =
        ["id", "username", "email", "display_name", "created_at"] := rfl
    refine ⟨hk, ?_⟩
    rw [hk]
    decide
  · intro secret now db b u tok db1 h
    simp only [registerHandler] at h
    split at h
    · simp at h
    · split at h
      · simp at h
      · split at h
        · simp at h
        · split at h
          · simp at h
          · simp only [Prod.mk.injEq, RegisterResult.created.injEq] at h
            obtain ⟨⟨hu, -⟩, hdb⟩ := h
            refine ⟨_, ?_, hu.symm⟩
            rw [← hdb]
            simp
  · intro secret now db b u tok h
    simp only [loginHandler] at h
    split at h
    · simp at h
    · split at h
      · simp at h
      · rename_i user hfind
        split at h
        · simp at h
        · simp only [LoginResult.success.injEq] at h
          exact ⟨user, List.mem_of_find?_eq_some hfind, h.1.symm⟩
  · intro secret now db h u hm
    simp only [meHandler, authMiddleware] at hm
    split at hm
    · simp [Except.map] at hm
    · simp [Except.map] at hm
    · split at hm
      · simp [Except.map] at hm
      · split at hm
        · simp [Except.map] at hm
        · rename_i row hfind
          simp only [Except.map, Except.ok.injEq] at hm
          exact ⟨row, List.mem_of_find?_eq_some hfind, hm.symm⟩

/-- C1 witness: the sanitized user object of alice exposes exactly the
    five public keys, and the concrete register, login and me successes
    all carry a user object built by sanitizeUser from a stored row. -/
theorem c1_user_response_never_contains_password_hash_witness :
    (userObjKeys (sanitizeUser (toAuthedUser cAlice)) =
      ["id", "username", "email", "display_name", "created_at"] ∧
     "password_hash" ∉ userObjKeys (sanitizeUser (toAuthedUser cAlice))) ∧
    (∃ row ∈ cDb1.users,
      sanitizeUser (toAuthedUser cAlice) = sanitizeUser (toAuthedUser row)) ∧
    (∃ row ∈ cDb1.users,
      sanitizeUser (toAuthedUser cAlice) = sanitizeUser (toAuthedUser row)) ∧
    (∃ row ∈ cDb1.users,
      sanitizeUser (toAuthedUser cAlice) = sanitizeUser (toAuthedUser row)) :=
  ⟨c1_user_response_never_contains_password_hash.1 (sanitizeUser (toAuthedUser cAlice)),
   c1_user_response_never_contains_password_hash.2.1 "s" 0 cDb0 cRegisterBody
     (sanitizeUser (toAuthedUser cAlice)) (jwtSign "s" 1 0 3600) cDb1 (by decide),
   c1_user_response_never_contains_password_hash.2.2.1 "s" 5 cDb1 cLoginBody
     (sanitizeUser (toAuthedUser cAlice)) (jwtSign "s" 1 5 604800) (by decide),
   c1_user_response_never_contains_password_hash.2.2.2 "s" 10 cDb1
     (.bearer (jwtSign "s" 1 5 604800)) (sanitizeUser (toAuthedUser cAlice)) (by rfl)⟩

/-- C2: a token issued by a successful Login, presented as a bearer token
    to the auth middleware before its expiry (7 days = 604800 seconds
    after issue) and while a row with the logged-in user id still exists,
    verifies successfully and resolves to that same user id. -/
theorem c2_login_token_roundtrip : ∀ secret now now2 db db2 b u tok row2,
    loginHandler secret now db b = .success u tok →
    now2 < now + 604800 →
    db2.users.find? (fun r => r.id == u.id) = some row2 →
    authMiddleware secret now2 db2 (.bearer tok) = .ok (toAuthedUser row2) ∧
    (toAuthedUser row2).id = u.id := by
  intro secret now now2 db db2 b u tok row2 hl hlt hfind
  simp only [loginHandler] at hl
  split at hl
  · simp at hl
  · split at hl
    · simp at hl
    · rename_i user hfindu
      split at hl
      · simp at hl
      · simp only [LoginResult.success.injEq] at hl
        obtain ⟨hu, ht⟩ := hl
        have hid : u.id = user.id := by rw [← hu]; rfl
        subst ht
        have hrow2 : row2.id = u.id := by
          have := List.find?_some hfind
          simpa using this
        constructor
        · simp only [authMiddleware, jwtSign, jwtVerify]
          rw [if_neg (by simp)]
          rw [if_neg (by simpa using Nat.not_le.mpr hlt)]
          simp only [hid] at hfind
          simp only [hfind]
        · simpa [toAuthedUser] using hrow2

/-- C2 witness: the token from the login of alice at time 5, presented at
    time 10, resolves back to user id 1. -/
theorem c2_login_token_roundtrip_witness :
    authMiddleware "s" 10 cDb1 (.bearer (jwtSign "s" 1 5 604800)) =
      .ok (toAuthedUser cAlice) ∧
    (toAuthedUser cAlice).id = (sanitizeUser (toAuthedUser cAlice)).id :=
  c2_login_token_roundtrip "s" 5 10 cDb1 cDb1 cLoginBody
    (sanitizeUser (toAuthedUser cAlice)) (jwtSign "s" 1 5 604800) cAlice
    (by decide) (by decide) (by decide)

/-- C3: a malformed bearer token, a well-formed token with an invalid
    signature, a correctly signed token whose expiry has passed, and a
    correctly signed unexpired token whose subject matches no user row,
    all make the middleware fail with the same 401 response carrying the
    single message invalid token. -/
theorem c3_auth_failures_indistinguishable :
    (∀ secret now db raw,
      authMiddleware secret now db (.bearer (.malformed raw)) =
        .error { status := 401, message := "invalid token" }) ∧
    (∀ secret now db p s, s ≠ jwtSignature secret p →
      authMiddleware secret now db (.bearer (.wellFormed p s)) =
        .error { status := 401, message := "invalid token" }) ∧
    (∀ secret now db p, p.exp ≤ now →
      authMiddleware secret now db (.bearer (.wellFormed p (jwtSignature secret p))) =
        .error { status := 401, message := "invalid token" }) ∧
    (∀ secret now db p, now < p.exp →
      db.users.find? (fun r => r.id == p.userId) = none →
      authMiddleware secret now db (.bearer (.wellFormed p (jwtSignature secret p))) =
        .error { status := 401, message := "invalid token" }) := by
  refine ⟨?_, ?_, ?_, ?_⟩
  · intro secret now db raw
    rfl
  · intro secret now db p s hs
    simp only [authMiddleware, jwtVerify]
    rw [if_pos hs]
  · intro secret now db p hexp
    simp only [authMiddleware, jwtVerify]
    rw [if_neg (by simp), if_pos hexp]
  · intro secret now db p hexp hfind
    simp only [authMiddleware, jwtVerify]
    rw [if_neg (by simp), if_neg (Nat.not_le.mpr hexp)]
    simp only [hfind]

/-- C3 witness: the four failure shapes at concrete inputs all produce
    the identical 401 invalid-token response. -/
theorem c3_auth_failures_indistinguishable_witness :
    authMiddleware "s" 0 cDb1 (.bearer (.malformed "garbage")) =
      .error { status := 401, message := "invalid token" } ∧
    authMiddleware "s" 0 cDb1 (.bearer (.wellFormed cPayload "forged")) =
      .error { status := 401, message := "invalid token" } ∧
    authMiddleware "s" 20 cDb1
        (.bearer (.wellFormed cPayload (jwtSignature "s" cPayload))) =
      .error { status := 401, message := "invalid token" } ∧
    authMiddleware "s" 0 cDb1
        (.bearer (.wellFormed cPayloadNoUser (jwtSignature "s" cPayloadNoUser))) =
      .error { status := 401, message := "invalid token" } :=
  ⟨c3_auth_failures_indistinguishable.1 "s" 0 cDb1 "garbage",
   c3_auth_failures_indistinguishable.2.1 "s" 0 cDb1 cPayload "forged" (by decide),
   c3_auth_failures_indistinguishable.2.2.1 "s" 20 cDb1 cPayload (by decide),
   c3_auth_failures_indistinguishable.2.2.2 "s" 0 cDb1 cPayloadNoUser
     (by decide) (by decide)⟩

/-- C4 counterexample: with the signing secret environment variable
    absent, the system does not fail closed: login still succeeds with a
    200 response, operating on the hard-coded default fallback secret. -/
theorem c4_counterexample_default_secret_fallback :
    JWT_SECRET none = "change_this_secret" ∧
    loginHandler (JWT_SECRET none) 0 cDb1 cLoginBody =
      .success (sanitizeUser (toAuthedUser cAlice))
        (jwtSign "change_this_secret" 1 0 604800) ∧
    loginStatus (.success (sanitizeUser (toAuthedUser cAlice))
        (jwtSign "change_this_secret" 1 0 604800)) = 200 := by
  refine ⟨rfl, by decide, rfl⟩

/-- C4 amended: if the signing secret environment variable is absent (or
    empty, which JS treats as falsy), the system does not reject startup
    or requests; it silently operates with the default fallback secret
    change_this_secret, behaving exactly as if that secret had been
    configured. -/
theorem c4_absent_secret_uses_default_fallback : ∀ env now db b h,
    (env = none ∨ env = some "") →
    JWT_SECRET env = "change_this_secret" ∧
    loginHandler (JWT_SECRET env) now db b =
      loginHandler "change_this_secret" now db b ∧
    authMiddleware (JWT_SECRET env) now db h =
      authMiddleware "change_this_secret" now db h := by
  intro env now db b h henv
  rcases henv with h1 | h1 <;> subst h1 <;> exact ⟨rfl, rfl, rfl⟩

/-- C4 witness: the amended behaviour at the concrete unset environment. -/
theorem c4_absent_secret_uses_default_fallback_witness :
    JWT_SECRET none = "change_this_secret" ∧
    loginHandler (JWT_SECRET none) 0 cDb1 cLoginBody =
      loginHandler "change_this_secret" 0 cDb1 cLoginBody ∧
    authMiddleware (JWT_SECRET none) 0 cDb1 .missing =
      authMiddleware "change_this_secret" 0 cDb1 .missing :=
  c4_absent_secret_uses_default_fallback none 0 cDb1 cLoginBody .missing (Or.inl rfl)

/-- C5: a login with a username matching no user and a login with an
    existing username but a wrong password produce the same outcome, with
    the identical status 401 and the identical message invalid
    credentials. -/
theorem c5_login_enumeration_resistance : ∀ secret now db u1 p1 u2 p2 row,
    db.users.find? (fun r => r.username == u1) = none →
    db.users.find? (fun r => r.username == u2) = some row →
    bcryptCompare p2 row.password_hash = false →
    loginHandler secret now db { username := some u1, password := some p1 } =
      .invalidCredentials ∧
    loginHandler secret now db { username := some u2, password := some p2 } =
      .invalidCredentials ∧
    loginStatus .invalidCredentials = 401 ∧
    loginMessage .invalidCredentials = some "invalid credentials" := by
  intro secret now db u1 p1 u2 p2 row h1 h2 hc
  refine ⟨?_, ?_, rfl, rfl⟩
  · simp only [loginHandler, loginValidationMsgs, Option.isSome_some, if_true,
      Option.getD_some]
    simp only [h1]
    rfl
  · simp only [loginHandler, loginValidationMsgs, Option.isSome_some, if_true,
      Option.getD_some]
    simp only [h2]
    simp [hc]

/-- C5 witness: an unknown username bob and a wrong password for alice
    are both answered by the identical invalid-credentials outcome. -/
theorem c5_login_enumeration_resistance_witness :
    loginHandler "s" 0 cDb1 { username := some "bob", password := some "whatever" } =
      .invalidCredentials ∧
    loginHandler "s" 0 cDb1 { username := some "alice", password := some "wrongpw" } =
      .invalidCredentials ∧
    loginStatus .invalidCredentials = 401 ∧
    loginMessage .invalidCredentials = some "invalid credentials" :=
  c5_login_enumeration_resistance "s" 0 cDb1 "bob" "whatever" "alice" "wrongpw"
    cAlice (by decide) (by decide) (by decide)

/-- C6: for a structurally valid registration whose username already
    exists, the handler answers username already taken (400) and leaves
    the database unchanged, regardless of the email; if the username is
    fresh but the email exists, it answers email already used (400) and
    leaves the database unchanged — the username check runs first. -/
theorem c6_register_conflicts : ∀ secret now db b username email,
    b.username = some username → b.email = some email →
    registerValidationMsgs b = [] →
    b.password = b.confirmPassword →
    ((∃ row ∈ db.users, row.username = username) →
      registerHandler secret now db b = (.usernameTaken, db) ∧
      registerStatus .usernameTaken = 400 ∧
      registerMessage .usernameTaken = some "username already taken") ∧
    ((∀ row ∈ db.users, row.username ≠ username) →
     (∃ row ∈ db.users, row.email = email) →
      registerHandler secret now db b = (.emailUsed, db) ∧
      registerStatus .emailUsed = 400 ∧
      registerMessage .emailUsed = some "email already used") := by
  intro secret now db b username email hbu hbe hv hpc
  constructor
  · rintro ⟨row, hmem, hname⟩
    refine ⟨?_, rfl, rfl⟩
    simp only [registerHandler, hv, hbu, hbe, Option.getD_some]
    rw [if_neg (by simp)]
    rw [if_neg (by simp [hpc])]
    rw [if_pos ((List.find?_isSome).mpr ⟨row, hmem, by simp [hname]⟩)]
  · rintro hnone ⟨row, hmem, hmail⟩
    refine ⟨?_, rfl, rfl⟩
    have hfn : db.users.find? (fun r => r.username == username) = none :=
      (List.find?_eq_none).mpr (fun r hr => by simpa using hnone r hr)
    simp only [registerHandler, hv, hbu, hbe, Option.getD_some]
    rw [if_neg (by simp)]
    rw [if_neg (by simp [hpc])]
    rw [if_neg (by simp [hfn])]
    rw [if_pos ((List.find?_isSome).mpr ⟨row, hmem, by simp [hmail]⟩)]

/-- C6 witness: re-registering the name alice with a fresh email hits the
    username conflict; registering a fresh name with the email of alice
    hits the email conflict; neither mutates the database. -/
theorem c6_register_conflicts_witness :
    (registerHandler "s" 7 cDb1 cDupUsernameBody = (.usernameTaken, cDb1) ∧
     registerStatus .usernameTaken = 400 ∧
     registerMessage .usernameTaken = some "username already taken") ∧
    (registerHandler "s" 7 cDb1 cDupEmailBody = (.emailUsed, cDb1) ∧
     registerStatus .emailUsed = 400 ∧
     registerMessage .emailUsed = some "email already used") :=
  ⟨(c6_register_conflicts "s" 7 cDb1 cDupUsernameBody "alice" "b@y.com"
      rfl rfl (by decide) rfl).1 ⟨cAlice, by decide, rfl⟩,
   (c6_register_conflicts "s" 7 cDb1 cDupEmailBody "bobby" "a@x.com"
      rfl rfl (by decide) rfl).2 (by decide) ⟨cAlice, by decide, rfl⟩⟩

/-- C7 counterexample: a request violating both the username-length
    constraint and password equal to confirmPassword is rejected with a
    body reporting only the username violation: the mismatch violation is
    not part of the reported list, so the body does not report all
    violated constraints. -/
theorem c7_counterexample_mismatch_not_collected :
    registerHandler "s" 0 cDb0 cBadBody =
      (.validationFailed ["username min 3 chars"], cDb0) ∧
    cBadBody.password ≠ cBadBody.confirmPassword ∧
    "passwords do not match" ∉ ["username min 3 chars"] := by
  refine ⟨by decide, by decide, by decide⟩

/-- C7 amended: when any of the four attached validators fails (username
    length at least 3, email syntax, password length at least 6,
    confirmPassword present), the request is rejected 400 with a body
    collecting the messages of every failed validator, not just the
    first, and the database is unchanged; the password-confirmPassword
    mismatch is not part of that collected report: it is checked only
    after all validators pass and is then reported alone as 400 passwords
    do not match, also with no store mutation. -/
theorem c7_validation_reporting : ∀ secret now db b,
    (registerValidationMsgs b ≠ [] →
      registerHandler secret now db b =
        (.validationFailed (registerValidationMsgs b), db)) ∧
    (usernameOk b = false → "username min 3 chars" ∈ registerValidationMsgs b) ∧
    (emailOk b = false → "invalid email" ∈ registerValidationMsgs b) ∧
    (passwordOk b = false → "password min 6 chars" ∈ registerValidationMsgs b) ∧
    (confirmPresent b = false → "Invalid value" ∈ registerValidationMsgs b) ∧
    (registerValidationMsgs b = [] →
      b.password.getD "" ≠ b.confirmPassword.getD "" →
      registerHandler secret now db b = (.passwordMismatch, db)) ∧
    registerStatus (.validationFailed (registerValidationMsgs b)) = 400 ∧
    registerStatus .passwordMismatch = 400 := by
  intro secret now db b
  refine ⟨?_, ?_, ?_, ?_, ?_, ?_, rfl, rfl⟩
  · intro h
    simp only [registerHandler]
    rw [if_pos h]
  · intro h
    simp [registerValidationMsgs, h]
  · intro h
    simp [registerValidationMsgs, h]
  · intro h
    simp [registerValidationMsgs, h]
  · intro h
    simp [registerValidationMsgs, h]
  · intro hv hne
    simp only [registerHandler, hv]
    rw [if_neg (by simp)]
    rw [if_pos hne]

/-- C7 witness: the doubly invalid request is rejected with its collected
    validator messages containing the username violation, and a
    validator-clean request with mismatching passwords is rejected with
    the mismatch outcome; the database is unchanged in both. -/
theorem c7_validation_reporting_witness :
    registerHandler "s" 0 cDb0 cBadBody =
      (.validationFailed (registerValidationMsgs cBadBody), cDb0) ∧
    "username min 3 chars" ∈ registerValidationMsgs cBadBody ∧
    registerHandler "s" 0 cDb0 cMismatchBody = (.passwordMismatch, cDb0) :=
  ⟨(c7_validation_reporting "s" 0 cDb0 cBadBody).1 (by decide),
   (c7_validation_reporting "s" 0 cDb0 cBadBody).2.1 (by decide),
   (c7_validation_reporting "s" 0 cDb0 cMismatchBody).2.2.2.2.2.1
     (by decide) (by decide)⟩

/-- C8: listing saved movies only ever returns rows owned by the
    requesting user id, and a delete for which no row of the requesting
    user matches the movie id — whether the association belongs to
    another user or does not exist at all — answers the identical 404
    not-found response and leaves the database unchanged. -/
theorem c8_ownership_scoping : ∀ db uid mid,
    (∀ r ∈ listSaved db uid, r.user_id = uid) ∧
    ((∀ r ∈ db.saved, r.movie_id = mid → r.user_id ≠ uid) →
      deleteSaved db uid mid = (.notFound, db)) ∧
    deleteStatus .notFound = 404 ∧
    deleteMessage .notFound = "movie not found" := by
  intro db uid mid
  refine ⟨?_, ?_, rfl, rfl⟩
  · intro r hr
    have h1 : r ∈ db.saved.filter (fun r => r.user_id == uid) := by
      simpa [listSaved] using (List.mem_mergeSort).mp hr
    have h2 := (List.mem_filter.mp h1).2
    simpa using h2
  · intro h
    have hfil : db.saved.filter
        (fun r => r.user_id == uid && r.movie_id == mid) = [] := by
      rw [List.filter_eq_nil_iff]
      intro r hr
      simp only [Bool.and_eq_true, beq_iff_eq, not_and]
      intro h1 h2
      exact absurd h1 (h r hr h2)
    simp only [deleteSaved, hfil]
    rfl

/-- C8 witness: the row of alice is owned by user 1, and deleting movie
    603 as user 2 (bob), who owns nothing, is the identical 404 as for an
    absent association, with the database unchanged. -/
theorem c8_ownership_scoping_witness :
    cSavedRow.user_id = 1 ∧
    deleteSaved cDb2 2 603 = (.notFound, cDb2) ∧
    deleteStatus .notFound = 404 ∧
    deleteMessage .notFound = "movie not found" :=
  ⟨(c8_ownership_scoping cDb2 1 603).1 cSavedRow
     ((List.mem_mergeSort).mpr (by decide)),
   (c8_ownership_scoping cDb2 2 603).2.1 (by decide),
   (c8_ownership_scoping cDb2 2 603).2.2.1,
   (c8_ownership_scoping cDb2 2 603).2.2.2⟩

/-- C9: every item of the search and trending results arrays is the
    reshaping of an upstream item, and for every upstream item — also in
    the details handler — the reshaped year is the substring of the
    release date before its first dash (absent when the release date is
    absent) and the reshaped poster is the constructed w500 image URL
    when a poster path is present, else absent. -/
theorem c9_reshape_matches_spec :
    (∀ data, searchResults data = data.map reshapeMovie) ∧
    (∀ data, trendingResults data = data.map reshapeMovie) ∧
    (∀ m : TmdbMovie,
      (reshapeMovie m).year = yearSpec m.release_date ∧
      (reshapeMovie m).poster = posterSpec m.poster_path) ∧
    (∀ d : TmdbDetails,
      (detailsBody d).year = yearSpec d.release_date ∧
      (detailsBody d).poster = posterSpec d.poster_path) := by
  refine ⟨fun _ => rfl, fun _ => rfl, ?_, ?_⟩
  · intro m
    constructor
    · simp only [reshapeMovie, yearSpec]
      cases m.release_date with
      | none => rfl
      | some s => simpa using jsSplit_headD '-' s
    · rfl
  · intro d
    constructor
    · simp only [detailsBody, yearSpec]
      cases d.release_date with
      | none => rfl
      | some s => simpa using jsSplit_headD '-' s
    · rfl

/-- C10: a save of a movie id the user has already saved succeeds again
    and inserts one more association row (so at least two matching rows
    exist), and a single subsequent delete removes every association row
    of that user with that movie id at once. -/
theorem c10_save_no_dedup_delete_all : ∀ db uid now mid title yr pstr,
    mid ≠ 0 → title ≠ "" →
    (∃ r ∈ db.saved, r.user_id = uid ∧ r.movie_id = mid) →
    ∃ row db1 db2,
      saveHandler db uid now
        { movie_id := some mid, title := some title, year := yr, poster := pstr } =
        (.created row, db1) ∧
      row.user_id = uid ∧ row.movie_id = mid ∧
      db1.saved.length = db.saved.length + 1 ∧
      2 ≤ (db1.saved.filter (fun r => r.user_id == uid && r.movie_id == mid)).length ∧
      deleteSaved db1 uid mid = (.removed, db2) ∧
      db2.saved = db1.saved.filter (fun r => ¬ (r.user_id == uid && r.movie_id == mid)) ∧
      (∀ r ∈ db2.saved, ¬ (r.user_id = uid ∧ r.movie_id = mid)) := by
  intro db uid now mid title yr pstr hmid htitle hex
  obtain ⟨r0, hr0mem, hr0uid, hr0mid⟩ := hex
  have hrow0 : r0 ∈ db.saved.filter
      (fun r => r.user_id == uid && r.movie_id == mid) :=
    List.mem_filter.mpr ⟨hr0mem, by simp [hr0uid, hr0mid]⟩
  obtain ⟨row, hrowdef⟩ : ∃ row : SavedMovieRow,
      row = { id := db.nextSavedId, user_id := uid, movie_id := mid,
              title := title, year := yr, poster := pstr, created_at := now } :=
    ⟨_, rfl⟩
  have hrowp : (row.user_id == uid && row.movie_id == mid) = true := by
    simp [hrowdef]
  have hmem2 : row ∈ (db.saved ++ [row]).filter
      (fun r => r.user_id == uid && r.movie_id == mid) :=
    List.mem_filter.mpr ⟨by simp, hrowp⟩
  refine ⟨row,
    { db with saved := db.saved ++ [row], nextSavedId := db.nextSavedId + 1 },
    { db with
        saved := (db.saved ++ [row]).filter
          (fun r => ¬ (r.user_id == uid && r.movie_id == mid)),
        nextSavedId := db.nextSavedId + 1 },
    ?_, by simp [hrowdef], by simp [hrowdef], by simp, ?_, ?_, rfl, ?_⟩
  · simp only [saveHandler]
    rw [if_neg (by simp [jsFalsyNum, jsFalsyStr, hmid, htitle])]
    rw [hrowdef]
    rfl
  · rw [List.filter_append]
    have h1 : 1 ≤ (db.saved.filter
        (fun r => r.user_id == uid && r.movie_id == mid)).length :=
      List.length_pos.mpr (List.ne_nil_of_mem hrow0)
    simp only [List.length_append, List.filter_cons, List.filter_nil, hrowp]
    simp
    omega
  · simp only [deleteSaved]
    rw [if_neg ?hne]
    case hne =>
      simp only [List.isEmpty_iff]
      exact fun hc => (List.ne_nil_of_mem hmem2) hc
  · intro r hr
    have h2 : ¬ (r.user_id == uid && r.movie_id == mid) :=
      of_decide_eq_true (List.mem_filter.mp hr).2
    intro hcon
    exact h2 (by simp [hcon.1, hcon.2])

/-- C10 witness: alice, who already saved movie 603, saves it again
    successfully; one delete then removes every matching row. -/
theorem c10_save_no_dedup_delete_all_witness :
    ∃ row db1 db2,
      saveHandler cDb2 1 4
        { movie_id := some 603, title := some "The Matrix",
          year := some "1999", poster := none } =
        (.created row, db1) ∧
      row.user_id = 1 ∧ row.movie_id = 603 ∧
      db1.saved.length = cDb2.saved.length + 1 ∧
      2 ≤ (db1.saved.filter (fun r => r.user_id == 1 && r.movie_id == 603)).length ∧
      deleteSaved db1 1 603 = (.removed, db2) ∧
      db2.saved = db1.saved.filter (fun r => ¬ (r.user_id == 1 && r.movie_id == 603)) ∧
      (∀ r ∈ db2.saved, ¬ (r.user_id = 1 ∧ r.movie_id = 603)) :=
  c10_save_no_dedup_delete_all cDb2 1 4 603 "The Matrix" (some "1999") none
    (by decide) (by decide) ⟨cSavedRow, by decide, rfl, rfl⟩
